import Mathlib

/-!
Verification of the scalar (base-case) step of the Dory polynomial commitment
scheme, embedded from `src/jolt-core/src/poly/commitment/dory/scalar.rs`.

The bilinear pairing is abstracted: `G1`, `G2`, `Gt` are additive commutative
groups that are modules over the scalar field `F`, and the pairing
`e : G1 →ₗ[F] G2 →ₗ[F] Gt` is a bilinear map.  The random blinder of the verifier
`d` (drawn from `thread_rng` in the source) is passed as an explicit argument.
Rust panics are modelled by the `panicked` outcome; typed errors by `failure`
(for constructors) or `Except.error` (for `Result`-returning functions).
-/

namespace Dory

/-- The error taxonomy of the Dory module (`Error` in `dory/mod.rs`, listed in
the error-handling section of the specification). -/
inductive Error where
  | LengthMismatch
  | InvalidPolynomialForm
  | CouldntInvertD
  | SerializationError
deriving DecidableEq, Repr

/-- Result of a Rust function that can either panic, fail with a typed
error, or succeed. -/
inductive Outcome (E α : Type) where
  | panicked
  | failure (err : E)
  | success (val : α)
deriving DecidableEq, Repr

/-- Modelled from the spec: the multilinear polynomial input type
(`poly/multilinear_polynomial.rs`, which is not under `src/`).  The spec says
the core consumes the dense-evaluation variant (`LargeScalars`, a vector of
scalars) only, and every other representation is a distinct variant of the
enum.  `otherVariant` stands for all non-dense variants. -/
inductive MultilinearPolynomial (F : Type) where
  | LargeScalars (evals : List F)
  | otherVariant
deriving DecidableEq, Repr

/-- Modelled from the spec: the vector public parameters
(`dory/params.rs`, not under `src/`), which expose the two generator vectors
`g1v()` and `g2v()`. -/
structure PublicParams (G1 G2 : Type) where
  g1v : List G1
  g2v : List G2
deriving DecidableEq, Repr

/-- Modelled from the spec: the singleton parameters (`SingleParam` in
`dory/params.rs`, not under `src/`), exposing `(g1, g2, c)` with the intended
invariant `c = e(g1, g2)`. -/
structure SingleParam (G1 G2 Gt : Type) where
  g1 : G1
  g2 : G2
  c : Gt
deriving DecidableEq, Repr

/-- Witness over set Zr (`Witness` in `scalar.rs`): a pair of vectors of
source-group elements. -/
structure Witness (G1 G2 : Type) where
  u1 : List G1
  u2 : List G2
deriving DecidableEq, Repr

/-- The commitment triple (`Commitment` in `scalar.rs`). -/
structure Commitment (Gt : Type) where
  c : Gt
  d1 : Gt
  d2 : Gt
deriving DecidableEq, Repr

/-- The scalar proof (`ScalarProof` in `scalar.rs`): the two singleton
source-group elements. -/
structure ScalarProof (G1 G2 : Type) where
  e1 : G1
  e2 : G2
deriving DecidableEq, Repr

section Core

variable {F G1 G2 Gt : Type}
variable [Field F] [DecidableEq F]
variable [AddCommGroup G1] [AddCommGroup G2] [AddCommGroup Gt]
variable [Module F G1] [Module F G2] [Module F Gt]
variable [DecidableEq Gt]
variable (e : G1 →ₗ[F] G2 →ₗ[F] Gt)

/-- Modelled from the spec: the inner pairing product
(`vec_operations::InnerProd`, not under `src/`):
`⟨xs, ys⟩ = Σᵢ e(xsᵢ, ysᵢ)`, failing with `LengthMismatch` on unequal
lengths. -/
def innerProd (xs : List G1) (ys : List G2) : Except Error Gt :=
  if xs.length = ys.length then
    .ok (List.zipWith (fun x y => e x y) xs ys).sum
  else
    .error .LengthMismatch

/-- Embedding of `Witness::new` (`scalar.rs` lines 36–58): requires the dense
(`LargeScalars`) variant — any other variant panics — and zips each generator
vector with the evaluation vector, scaling componentwise.  The Rust `zip`
truncates to the shorter of the two iterators, as does `List.zipWith`. -/
def Witness.new (params : PublicParams G1 G2) (poly : MultilinearPolynomial F) :
    Outcome Error (Witness G1 G2) :=
  match poly with
  | .LargeScalars evals =>
      .success
        { u1 := List.zipWith (fun a b => b • a) params.g1v evals
          u2 := List.zipWith (fun a b => b • a) params.g2v evals }
  | .otherVariant => .panicked

/-- Embedding of `commit` (`scalar.rs` lines 85–98): the three inner pairing products
`d1 = ⟨u1, g2v⟩`, `d2 = ⟨g1v, u2⟩`, `c = ⟨u1, u2⟩`, each of which can fail
with `LengthMismatch`. -/
def commit (w : Witness G1 G2) (public_params : PublicParams G1 G2) :
    Except Error (Commitment Gt) := do
  let d1 ← innerProd e w.u1 public_params.g2v
  let d2 ← innerProd e public_params.g1v w.u2
  let c ← innerProd e w.u1 w.u2
  return { c := c, d1 := d1, d2 := d2 }

/-- Embedding of `ScalarProof::new` (`scalar.rs` lines 113–118): reads index 0 of both
witness vectors (a Rust index-out-of-bounds panic when either is empty). -/
def ScalarProof.new (witness : Witness G1 G2) : Outcome Error (ScalarProof G1 G2) :=
  match witness.u1, witness.u2 with
  | x :: _, y :: _ => .success { e1 := x, e2 := y }
  | _, _ => .panicked

/-- Embedding of `ScalarProof::verify` (`scalar.rs` lines 120–137) with the sampled blinder
`d` made explicit.  `d.inverse()` in arkworks returns `None` exactly when
`d = 0`, which the source converts to `Error::CouldntInvertD`; otherwise the
verifier checks `e(e1 + d·g1, e2 + d⁻¹·g2) = c_pp + C + d·D2 + d⁻¹·D1`. -/
def ScalarProof.verify (self : ScalarProof G1 G2) (pp : SingleParam G1 G2 Gt)
    (com : Commitment Gt) (d : F) : Except Error Bool :=
  if d = 0 then
    .error .CouldntInvertD
  else
    let d_inv := d⁻¹
    let lhs_g1 := self.e1 + d • pp.g1
    let lhs_g2 := self.e2 + d_inv • pp.g2
    let left_eq := e lhs_g1 lhs_g2
    let right_eq := pp.c + com.c + d • com.d2 + d_inv • com.d1
    .ok (decide (left_eq = right_eq))

end Core

section Transcript

variable {Gt : Type}

/-- Modelled from the spec: `append_gt` (in `dory/mod.rs`, not under `src/`)
absorbs one target-group element into the Fiat–Shamir transcript.  The
transcript is modelled as the list of absorbed `Gt` elements, in order. -/
def appendGt (transcript : List Gt) (x : Gt) : List Gt :=
  transcript ++ [x]

/-- Embedding of `Commitment::append_to_transcript` (`scalar.rs` lines 71–83): appends
`c`, then `d1`, then `d2`. -/
def Commitment.appendToTranscript (self : Commitment Gt) (transcript : List Gt) :
    List Gt :=
  appendGt (appendGt (appendGt transcript self.c) self.d1) self.d2

end Transcript

/-! ### A concrete computable instance

A minimal pairing configuration used to evaluate the definitions on concrete
inputs: all four carriers are `ZMod 5` and the pairing is field
multiplication, which is bilinear. -/

instance : Fact (Nat.Prime 5) := ⟨by norm_num⟩

/-- Field multiplication on `ZMod 5` as a bilinear map; a concrete,
computable pairing. -/
def mulE : ZMod 5 →ₗ[ZMod 5] ZMod 5 →ₗ[ZMod 5] ZMod 5 :=
  LinearMap.mk₂ (ZMod 5) (fun x y => x * y)
    (fun a b c => add_mul a b c)
    (fun r a b => by simp [smul_eq_mul, mul_assoc])
    (fun a b c => mul_add a b c)
    (fun r a b => by simp [smul_eq_mul]; ring)

/-- Concrete vector parameters: `g1v = [1]`, `g2v = [1]`. -/
def ppW : PublicParams (ZMod 5) (ZMod 5) := ⟨[1], [1]⟩

/-- Concrete singleton parameters `(g1, g2, c) = (1, 1, 1)`; note
`mulE 1 1 = 1`, so the invariant `c = e(g1, g2)` holds. -/
def spW : SingleParam (ZMod 5) (ZMod 5) (ZMod 5) := ⟨1, 1, 1⟩

/-- Concrete honest witness for the evaluation vector `[3]` under `ppW`. -/
def wW : Witness (ZMod 5) (ZMod 5) := ⟨[3], [3]⟩

/-- Concrete scalar proof extracted from `wW`. -/
def prW : ScalarProof (ZMod 5) (ZMod 5) := ⟨3, 3⟩

/-- Concrete commitment of `wW` under `ppW`:
`d1 = 3·1 = 3`, `d2 = 1·3 = 3`, `c = 3·3 = 4`. -/
def comW : Commitment (ZMod 5) := ⟨4, 3, 3⟩

/-- Concrete parameters with generator vectors longer than the evaluation
vector. -/
def ppTrunc : PublicParams (ZMod 5) (ZMod 5) := ⟨[1, 1], [1, 1]⟩

/-- Concrete witness with mismatched vector lengths, for the `commit`
length check. -/
def wMis : Witness (ZMod 5) (ZMod 5) := ⟨[1, 1], [1]⟩

/-- Concrete witness for the truncation scenario under `ppTrunc`. -/
def wTr : Witness (ZMod 5) (ZMod 5) := ⟨[2], [2]⟩


/-- Decidable equality of `Except` results, for evaluating the embedded
functions on concrete inputs. -/
instance {E α : Type} [DecidableEq E] [DecidableEq α] : DecidableEq (Except E α) := fun x y =>
  match x, y with
  | .ok a, .ok b =>
      if h : a = b then .isTrue (by rw [h]) else .isFalse (by intro hc; cases hc; exact h rfl)
  | .error a, .error b =>
      if h : a = b then .isTrue (by rw [h]) else .isFalse (by intro hc; cases hc; exact h rfl)
  | .ok _, .error _ => .isFalse (by intro hc; cases hc)
  | .error _, .ok _ => .isFalse (by intro hc; cases hc)

/-- The inverse of `2` in `ZMod 5` is `3` (so concrete runs of `verify` can
avoid kernel reduction of field inversion). -/
lemma zmod5_inv_two : (2 : ZMod 5)⁻¹ = 3 :=
  inv_eq_of_mul_eq_one_right (by decide)

/-- Concrete run: the honest proof for `wW` verifies under blinder `2`. -/
lemma verify_concrete_two : ScalarProof.verify mulE prW spW comW 2 = .ok true := by
  simp only [ScalarProof.verify, zmod5_inv_two]
  decide

/-- C9: `append_to_transcript` appends exactly the three target-group elements
`C`, `D1`, `D2` of the commitment to the transcript, in exactly that order,
and appends nothing else. -/
theorem appendToTranscript_order {Gt : Type} (com : Commitment Gt) (t : List Gt) :
    com.appendToTranscript t = t ++ [com.c, com.d1, com.d2] := by
  simp [Commitment.appendToTranscript, appendGt]

/-- C5: for every length-1 witness `(u1, u2)`, `ScalarProof::new` returns the
proof with `e1 = u1[0]` and `e2 = u2[0]`. -/
theorem scalarProof_new_base_case {G1 G2 : Type}
    (w : Witness G1 G2) (x : G1) (y : G2)
    (h1 : w.u1 = [x]) (h2 : w.u2 = [y]) :
    ScalarProof.new w = .success ⟨x, y⟩ := by
  simp [ScalarProof.new, h1, h2]

theorem scalarProof_new_base_case_witness :
    ScalarProof.new wW = .success ⟨3, 3⟩ :=
  scalarProof_new_base_case wW 3 3 rfl rfl

/-- C1: for every scalar proof `(e1, e2)`, singleton parameters
`(g1, g2, c)`, commitment `(C, D1, D2)` and nonzero sampled blinder `d`,
`verify` returns `Ok b` where `b` is true exactly when
`e(e1 + d*g1, e2 + d_inv*g2) = c + C + d*D2 + d_inv*D1`, with `d_inv` the
field inverse of `d`. -/
theorem scalar_verify_pairing_equation
    {F G1 G2 Gt : Type} [Field F] [DecidableEq F]
    [AddCommGroup G1] [AddCommGroup G2] [AddCommGroup Gt]
    [Module F G1] [Module F G2] [Module F Gt] [DecidableEq Gt]
    (e : G1 →ₗ[F] G2 →ₗ[F] Gt)
    (pr : ScalarProof G1 G2) (pp : SingleParam G1 G2 Gt) (com : Commitment Gt)
    (d : F) (hd : d ≠ 0) :
    (∃ b, pr.verify e pp com d = .ok b) ∧
      (pr.verify e pp com d = .ok true ↔
        e (pr.e1 + d • pp.g1) (pr.e2 + d⁻¹ • pp.g2)
          = pp.c + com.c + d • com.d2 + d⁻¹ • com.d1) := by
  constructor
  · exact ⟨decide (e (pr.e1 + d • pp.g1) (pr.e2 + d⁻¹ • pp.g2)
        = pp.c + com.c + d • com.d2 + d⁻¹ • com.d1), by simp [ScalarProof.verify, hd]⟩
  · simp [ScalarProof.verify, hd]

theorem scalar_verify_pairing_equation_witness :
    (2 : ZMod 5) ≠ 0 ∧ ScalarProof.verify mulE prW spW comW 2 = .ok true := by
  refine ⟨by decide, ?_⟩
  refine (scalar_verify_pairing_equation mulE prW spW comW 2 (by decide)).2.mpr ?_
  rw [zmod5_inv_two]
  decide

/-- C6: when the blinder sampled inside `verify` is zero (hence not
invertible), `verify` returns the error `CouldntInvertD` rather than
panicking; it returns an `Ok` value only when the blinder is nonzero. -/
theorem verify_zero_blinder
    {F G1 G2 Gt : Type} [Field F] [DecidableEq F]
    [AddCommGroup G1] [AddCommGroup G2] [AddCommGroup Gt]
    [Module F G1] [Module F G2] [Module F Gt] [DecidableEq Gt]
    (e : G1 →ₗ[F] G2 →ₗ[F] Gt)
    (pr : ScalarProof G1 G2) (pp : SingleParam G1 G2 Gt) (com : Commitment Gt) :
    pr.verify e pp com (0 : F) = .error .CouldntInvertD ∧
      ∀ (d : F) (b : Bool), pr.verify e pp com d = .ok b → d ≠ 0 := by
  constructor
  · simp [ScalarProof.verify]
  · intro d b h hd0
    subst hd0
    simp [ScalarProof.verify] at h

theorem verify_zero_blinder_witness :
    ScalarProof.verify mulE prW spW comW 0 = .error .CouldntInvertD ∧ (2 : ZMod 5) ≠ 0 :=
  ⟨(verify_zero_blinder mulE prW spW comW).1,
   (verify_zero_blinder mulE prW spW comW).2 2 true verify_concrete_two⟩

/-- C3: for every witness `(u1, u2)` and public parameters `(g1v, g2v)`,
when all lengths match, `commit` returns `Ok` of the commitment whose
components are the inner pairing products `D1 = ⟨u1, g2v⟩`,
`D2 = ⟨g1v, u2⟩` and `C = ⟨u1, u2⟩`, with `⟨x, y⟩ = Σ e(x i, y i)`. -/
theorem commit_components
    {F G1 G2 Gt : Type} [Field F] [DecidableEq F]
    [AddCommGroup G1] [AddCommGroup G2] [AddCommGroup Gt]
    [Module F G1] [Module F G2] [Module F Gt] [DecidableEq Gt]
    (e : G1 →ₗ[F] G2 →ₗ[F] Gt)
    (w : Witness G1 G2) (pp : PublicParams G1 G2)
    (h1 : w.u1.length = pp.g2v.length)
    (h2 : pp.g1v.length = w.u2.length)
    (h3 : w.u1.length = w.u2.length) :
    commit e w pp = .ok
      { c := (List.zipWith (fun x y => e x y) w.u1 w.u2).sum
        d1 := (List.zipWith (fun x y => e x y) w.u1 pp.g2v).sum
        d2 := (List.zipWith (fun x y => e x y) pp.g1v w.u2).sum } := by
  have h4 : pp.g2v.length = w.u2.length := h1.symm.trans h3
  simp [commit, innerProd, h1, h2, h3, h4, bind, Except.bind, Functor.map, Except.map,
    pure, Except.pure]

theorem commit_components_witness :
    wW.u1.length = ppW.g2v.length ∧ ppW.g1v.length = wW.u2.length ∧
      wW.u1.length = wW.u2.length ∧
      commit mulE wW ppW = .ok
        { c := (List.zipWith (fun x y => mulE x y) wW.u1 wW.u2).sum
          d1 := (List.zipWith (fun x y => mulE x y) wW.u1 ppW.g2v).sum
          d2 := (List.zipWith (fun x y => mulE x y) ppW.g1v wW.u2).sum } :=
  ⟨rfl, rfl, rfl, commit_components mulE wW ppW rfl rfl rfl⟩

/-- C8: `commit` returns the error `LengthMismatch` (and no commitment)
whenever any of the three inner pairing products it computes is given
vectors of unequal length. -/
theorem commit_length_mismatch
    {F G1 G2 Gt : Type} [Field F] [DecidableEq F]
    [AddCommGroup G1] [AddCommGroup G2] [AddCommGroup Gt]
    [Module F G1] [Module F G2] [Module F Gt] [DecidableEq Gt]
    (e : G1 →ₗ[F] G2 →ₗ[F] Gt)
    (w : Witness G1 G2) (pp : PublicParams G1 G2)
    (h : w.u1.length ≠ pp.g2v.length ∨ pp.g1v.length ≠ w.u2.length ∨
      w.u1.length ≠ w.u2.length) :
    commit e w pp = .error .LengthMismatch := by
  rcases h with h | h | h
  · simp [commit, innerProd, h, bind, Except.bind]
  · by_cases h1 : w.u1.length = pp.g2v.length
    · simp [commit, innerProd, h1, h, bind, Except.bind]
    · simp [commit, innerProd, h1, bind, Except.bind]
  · by_cases h1 : w.u1.length = pp.g2v.length
    · by_cases h2 : pp.g1v.length = w.u2.length
      · have h4 : pp.g2v.length ≠ w.u2.length := fun hc => h (h1.trans hc)
        simp [commit, innerProd, h1, h2, h, h4, bind, Except.bind, Functor.map, Except.map]
      · simp [commit, innerProd, h1, h2, bind, Except.bind]
    · simp [commit, innerProd, h1, bind, Except.bind]

theorem commit_length_mismatch_witness :
    ((wMis).u1.length ≠ ppW.g2v.length ∨
      ppW.g1v.length ≠ (wMis).u2.length ∨
      (wMis).u1.length ≠
        (wMis).u2.length) ∧
    commit mulE wMis ppW = .error .LengthMismatch :=
  ⟨Or.inl (by decide),
   commit_length_mismatch mulE wMis ppW (Or.inl (by decide))⟩

/-- C4: for public parameters with equal-length generator vectors `g1v`,
`g2v` of length `n` and a dense evaluation vector `a` of length `n`,
`Witness::new` produces the witness with `u1[i] = a[i] * g1v[i]` and
`u2[i] = a[i] * g2v[i]` for every `i < n`, and both `u1` and `u2` have
length `n`. -/
theorem witness_new_matching_lengths
    {F G1 G2 : Type} [Field F]
    [AddCommGroup G1] [AddCommGroup G2]
    [Module F G1] [Module F G2]
    (pp : PublicParams G1 G2) (a : List F) (n : ℕ) (wit : Witness G1 G2)
    (hg1 : pp.g1v.length = n) (hg2 : pp.g2v.length = n) (ha : a.length = n)
    (hw : Witness.new pp (.LargeScalars a) = .success wit) :
    wit.u1.length = n ∧ wit.u2.length = n ∧
      (∀ i (h1 : i < pp.g1v.length) (h2 : i < a.length) (hu : i < wit.u1.length),
        wit.u1.get ⟨i, hu⟩ = a.get ⟨i, h2⟩ • pp.g1v.get ⟨i, h1⟩) ∧
      (∀ i (h1 : i < pp.g2v.length) (h2 : i < a.length) (hu : i < wit.u2.length),
        wit.u2.get ⟨i, hu⟩ = a.get ⟨i, h2⟩ • pp.g2v.get ⟨i, h1⟩) := by
  simp only [Witness.new, Outcome.success.injEq] at hw
  subst hw
  refine ⟨?_, ?_, ?_, ?_⟩
  · simp [List.length_zipWith, hg1, ha]
  · simp [List.length_zipWith, hg2, ha]
  · intro i h1 h2 hu
    simp [List.get_eq_getElem, List.getElem_zipWith]
  · intro i h1 h2 hu
    simp [List.get_eq_getElem, List.getElem_zipWith]

theorem witness_new_matching_lengths_witness :
    wW.u1.length = 1 ∧ wW.u2.length = 1 ∧
      (∀ i (h1 : i < ppW.g1v.length) (h2 : i < ([3] : List (ZMod 5)).length)
        (hu : i < wW.u1.length),
        wW.u1.get ⟨i, hu⟩ = ([3] : List (ZMod 5)).get ⟨i, h2⟩ • ppW.g1v.get ⟨i, h1⟩) ∧
      (∀ i (h1 : i < ppW.g2v.length) (h2 : i < ([3] : List (ZMod 5)).length)
        (hu : i < wW.u2.length),
        wW.u2.get ⟨i, hu⟩ = ([3] : List (ZMod 5)).get ⟨i, h2⟩ • ppW.g2v.get ⟨i, h1⟩) :=
  witness_new_matching_lengths ppW ([3] : List (ZMod 5)) 1 wW rfl rfl rfl (by decide)

/-- C10: when the generator vectors and the dense evaluation vector have
unequal lengths, `Witness::new` does not fail: it silently truncates,
returning `u1` of length `min |g1v| |a|` and `u2` of length
`min |g2v| |a|`, each entry being the componentwise scalar multiple over
the overlapping prefix. -/
theorem witness_new_truncates
    {F G1 G2 : Type} [Field F]
    [AddCommGroup G1] [AddCommGroup G2]
    [Module F G1] [Module F G2]
    (pp : PublicParams G1 G2) (a : List F) (wit : Witness G1 G2)
    (_hne : pp.g1v.length ≠ a.length ∨ pp.g2v.length ≠ a.length)
    (hw : Witness.new pp (.LargeScalars a) = .success wit) :
    wit.u1.length = min pp.g1v.length a.length ∧
      wit.u2.length = min pp.g2v.length a.length ∧
      (∀ i (h1 : i < pp.g1v.length) (h2 : i < a.length) (hu : i < wit.u1.length),
        wit.u1.get ⟨i, hu⟩ = a.get ⟨i, h2⟩ • pp.g1v.get ⟨i, h1⟩) ∧
      (∀ i (h1 : i < pp.g2v.length) (h2 : i < a.length) (hu : i < wit.u2.length),
        wit.u2.get ⟨i, hu⟩ = a.get ⟨i, h2⟩ • pp.g2v.get ⟨i, h1⟩) := by
  simp only [Witness.new, Outcome.success.injEq] at hw
  subst hw
  refine ⟨by simp [List.length_zipWith], by simp [List.length_zipWith], ?_, ?_⟩
  · intro i h1 h2 hu
    simp [List.get_eq_getElem, List.getElem_zipWith]
  · intro i h1 h2 hu
    simp [List.get_eq_getElem, List.getElem_zipWith]

theorem witness_new_truncates_witness :
    (ppTrunc.g1v.length ≠ ([2] : List (ZMod 5)).length ∨
      ppTrunc.g2v.length ≠ ([2] : List (ZMod 5)).length) ∧
    ((wTr).u1.length =
        min ppTrunc.g1v.length ([2] : List (ZMod 5)).length ∧
      (wTr).u2.length =
        min ppTrunc.g2v.length ([2] : List (ZMod 5)).length ∧
      (∀ i (h1 : i < ppTrunc.g1v.length) (h2 : i < ([2] : List (ZMod 5)).length)
        (hu : i < (wTr).u1.length),
        (wTr).u1.get ⟨i, hu⟩ =
          ([2] : List (ZMod 5)).get ⟨i, h2⟩ • ppTrunc.g1v.get ⟨i, h1⟩) ∧
      (∀ i (h1 : i < ppTrunc.g2v.length) (h2 : i < ([2] : List (ZMod 5)).length)
        (hu : i < (wTr).u2.length),
        (wTr).u2.get ⟨i, hu⟩ =
          ([2] : List (ZMod 5)).get ⟨i, h2⟩ • ppTrunc.g2v.get ⟨i, h1⟩)) :=
  ⟨Or.inl (by decide),
   witness_new_truncates ppTrunc [2] wTr (Or.inl (by decide)) (by decide)⟩

/-- C7 counterexample: the claim that `Witness::new` rejects a non-dense
polynomial with the typed error `InvalidPolynomialForm` is false — on the
concrete non-dense input the builder panics (the let-else in `scalar.rs`
lines 37–39 calls the panic macro) and does not return that error. -/
theorem witness_new_nondense_counterexample :
    Witness.new (F := ZMod 5) ppW MultilinearPolynomial.otherVariant
        ≠ Outcome.failure Error.InvalidPolynomialForm ∧
      Witness.new (F := ZMod 5) ppW MultilinearPolynomial.otherVariant
        = Outcome.panicked := by
  exact ⟨by decide, by decide⟩

/-- C7 amended: on any non-dense polynomial variant, `Witness::new` panics
(precondition violation), rather than returning a typed error. -/
theorem witness_new_nondense_panics
    {F G1 G2 : Type} [Field F]
    [AddCommGroup G1] [AddCommGroup G2]
    [Module F G1] [Module F G2]
    (pp : PublicParams G1 G2) :
    Witness.new (F := F) pp MultilinearPolynomial.otherVariant = .panicked :=
  rfl

/-- Bilinear expansion of the left-hand side used by the verifier. -/
lemma pairing_expand
    {F G1 G2 Gt : Type} [Field F]
    [AddCommGroup G1] [AddCommGroup G2] [AddCommGroup Gt]
    [Module F G1] [Module F G2] [Module F Gt]
    (e : G1 →ₗ[F] G2 →ₗ[F] Gt)
    (x g1 : G1) (y g2 : G2) (d : F) (hd : d ≠ 0) :
    e (x + d • g1) (y + d⁻¹ • g2)
      = e x y + d⁻¹ • e x g2 + d • e g1 y + e g1 g2 := by
  have h1 : e (x + d • g1) = e x + d • e g1 := by
    simp [map_add, map_smul]
  rw [h1]
  simp only [LinearMap.add_apply, LinearMap.smul_apply, map_add, map_smul, smul_add,
    smul_smul]
  rw [inv_mul_cancel₀ hd, one_smul]
  abel

/-- C2: honest completeness. For every length-1 witness `(u1, u2)`, public
parameters with `g1v = [g1]` and `g2v = [g2]`, and singleton parameters
`(g1, g2, c)` satisfying `c = e(g1, g2)`, if the commitment is produced by
`commit` on that witness and the proof by `ScalarProof::new` on that
witness, then `verify` returns `Ok true` for every nonzero sampled
blinder `d`. -/
theorem scalar_verify_completeness
    {F G1 G2 Gt : Type} [Field F] [DecidableEq F]
    [AddCommGroup G1] [AddCommGroup G2] [AddCommGroup Gt]
    [Module F G1] [Module F G2] [Module F Gt] [DecidableEq Gt]
    (e : G1 →ₗ[F] G2 →ₗ[F] Gt)
    (pp : PublicParams G1 G2) (sp : SingleParam G1 G2 Gt)
    (w : Witness G1 G2) (com : Commitment Gt) (pr : ScalarProof G1 G2)
    (x : G1) (y : G2) (d : F)
    (hg1 : pp.g1v = [sp.g1]) (hg2 : pp.g2v = [sp.g2])
    (hc : sp.c = e sp.g1 sp.g2)
    (hu1 : w.u1 = [x]) (hu2 : w.u2 = [y])
    (hcom : commit e w pp = .ok com)
    (hpr : ScalarProof.new w = .success pr)
    (hd : d ≠ 0) :
    pr.verify e sp com d = .ok true := by
  have hcom2 : com = ⟨e x y, e x sp.g2, e sp.g1 y⟩ := by
    simp [commit, innerProd, hg1, hg2, hu1, hu2, bind, Except.bind, Functor.map, Except.map,
      pure, Except.pure] at hcom
    exact hcom.symm
  have hpr2 : pr = ⟨x, y⟩ := by
    simp [ScalarProof.new, hu1, hu2] at hpr
    exact hpr.symm
  subst hcom2 hpr2
  simp only [ScalarProof.verify, if_neg hd]
  rw [pairing_expand e x sp.g1 y sp.g2 d hd]
  rw [hc]
  congr 1
  rw [decide_eq_true_eq]
  abel

theorem scalar_verify_completeness_witness :
    ScalarProof.verify mulE prW spW comW 2 = .ok true :=
  scalar_verify_completeness mulE ppW spW wW comW prW 3 3 2
    (by decide) (by decide) (by decide) (by decide) (by decide)
    (by decide) (by decide) (by decide)

end Dory
